import Mathlib

/-!
Verification of the mock protocol test harness of prism-mcp-tools
(crate prism-test-utils: mock_server.rs, mock_client.rs, harness.rs).

The Rust code is shallowly embedded: every stateful method becomes a pure
function threading the receiver state explicitly.  Protocol message types
(JsonRpcRequest, JsonRpcResponse, JsonRpcNotification, ErrorObject) live in
the external prism_mcp_rs crate; their shapes are reproduced here exactly as
the sources under test construct and destructure them (struct literals in
mock_server.rs / mock_client.rs / harness.rs).  serde_json::Value is embedded
as the inductive JsonValue.  Rust HashMap<String, VecDeque<_>> is embedded as
an insertion-ordered association list: the claims under study never depend on
HashMap iteration order, and the association-list model gives each method key
a single entry exactly as the map does.
-/

/-- Model of serde_json::Value: JSON values (null, booleans, numbers, strings,
arrays, objects).  JSON numbers are modelled as integers; the code under
verification only ever creates integral ids and never computes on numbers. -/
inductive JsonValue where
  | null
  | bool (b : Bool)
  | num (n : Int)
  | str (s : String)
  | arr (items : List JsonValue)
  | obj (fields : List (String × JsonValue))

/-- Model of prism_mcp_rs::protocol::ErrorObject: numeric code, message,
optional structured data. -/
structure ErrorObject where
  code : Int
  message : String
  data : Option JsonValue

/-- Model of prism_mcp_rs::protocol::JsonRpcRequest as constructed and read by
the test-utils crate: jsonrpc version tag, id, method, optional params. -/
structure JsonRpcRequest where
  jsonrpc : String
  id : JsonValue
  method : String
  params : Option JsonValue

/-- Model of prism_mcp_rs::protocol::JsonRpcResponse: jsonrpc version tag,
optional id, optional result, optional error. -/
structure JsonRpcResponse where
  jsonrpc : String
  id : Option JsonValue
  result : Option JsonValue
  error : Option ErrorObject

/-- Model of prism_mcp_rs::protocol::JsonRpcNotification: method and optional
params, no id. -/
structure JsonRpcNotification where
  jsonrpc : String
  method : String
  params : Option JsonValue

/-- Model of prism_mcp_rs::protocol::JSONRPC_VERSION. -/
def JSONRPC_VERSION : String := "2.0"

/-- Model of JsonRpcRequest::with_params (builds a request with the given id,
method and params; parameter serialization of an already-built Value cannot
fail, so the Result wrapper is dropped). -/
def JsonRpcRequest.with_params (id : JsonValue) (method : String) (params : JsonValue) : JsonRpcRequest :=
  { jsonrpc := JSONRPC_VERSION, id := id, method := method, params := some params }

/-- Model of JsonRpcRequest::without_params. -/
def JsonRpcRequest.without_params (id : JsonValue) (method : String) : JsonRpcRequest :=
  { jsonrpc := JSONRPC_VERSION, id := id, method := method, params := none }

/-- Model of JsonRpcResponse::success_value: a success response with the given
id and result and no error. -/
def JsonRpcResponse.success_value (id : JsonValue) (result : JsonValue) : JsonRpcResponse :=
  { jsonrpc := JSONRPC_VERSION, id := some id, result := some result, error := none }

/-! ## MockServer (src/prism-test-utils/src/mock_server.rs) -/

/-- One entry per method name: the expectation queue for that method.
Embeds HashMap<String, VecDeque<JsonRpcResponse>>; queue front = list head. -/
abbrev Expectations := List (String × List JsonRpcResponse)

/-- Association-list lookup for the expectation map (HashMap::get). -/
def lookupExp (l : Expectations) (m : String) : Option (List JsonRpcResponse) :=
  match l with
  | [] => none
  | (k, q) :: rest => if k = m then some q else lookupExp rest m

/-- Replace the queue stored under an existing key (the in-place mutation a
HashMap::get_mut + pop_front performs); a missing key is left untouched. -/
def setExp (l : Expectations) (m : String) (q : List JsonRpcResponse) : Expectations :=
  match l with
  | [] => []
  | (k, q0) :: rest => if k = m then (k, q) :: rest else (k, q0) :: setExp rest m q

/-- Append a response to the queue of a method, creating the entry if absent
(HashMap::entry(..).or_insert_with(VecDeque::new).push_back(..)). -/
def pushExp (l : Expectations) (m : String) (r : JsonRpcResponse) : Expectations :=
  match l with
  | [] => [(m, [r])]
  | (k, q) :: rest => if k = m then (k, q ++ [r]) :: rest else (k, q) :: pushExp rest m r

/-- State of mock_server::MockServer.  The Rust default_response field is a
boxed closure; it is embedded as an optional Lean function. -/
structure MockServer where
  expectations : Expectations
  received_requests : List JsonRpcRequest
  ordered : Bool
  default_response : Option (JsonRpcRequest → JsonRpcResponse)

/-- MockServer::new. -/
def MockServer.new : MockServer :=
  { expectations := [], received_requests := [], ordered := false, default_response := none }

/-- MockServer::new_ordered. -/
def MockServer.new_ordered : MockServer :=
  { expectations := [], received_requests := [], ordered := true, default_response := none }

/-- MockServer::expect_request: push one response onto the method queue. -/
def MockServer.expect_request (s : MockServer) (method : String) (response : JsonRpcResponse) : MockServer :=
  { s with expectations := pushExp s.expectations method response }

/-- MockServer::expect_requests: push each response in order onto the method
queue (entry once, then push_back in a loop, which equals iterated single
pushes). -/
def MockServer.expect_requests (s : MockServer) (method : String) (responses : List JsonRpcResponse) : MockServer :=
  responses.foldl (fun st r => st.expect_request method r) s

/-- MockServer::with_default_response. -/
def MockServer.with_default_response (s : MockServer) (handler : JsonRpcRequest → JsonRpcResponse) : MockServer :=
  { s with default_response := some handler }

/-- The method-not-found response MockServer::handle synthesizes when no
expectation and no default handler apply. -/
def methodNotFoundResponse (request : JsonRpcRequest) : JsonRpcResponse :=
  { jsonrpc := JSONRPC_VERSION
    id := some request.id
    result := none
    error := some { code := -32601, message := "Unexpected method: " ++ request.method, data := none } }

/-- MockServer::handle: record the request, then three-tier resolution —
pop the front of the method queue (overwriting its id with the request id),
else the default handler, else a method-not-found error response. -/
def MockServer.handle (s : MockServer) (request : JsonRpcRequest) : JsonRpcResponse × MockServer :=
  let s1 : MockServer := { s with received_requests := s.received_requests ++ [request] }
  match lookupExp s1.expectations request.method with
  | some (response :: rest) =>
      ({ response with id := some request.id },
       { s1 with expectations := setExp s1.expectations request.method rest })
  | _ =>
      match s1.default_response with
      | some default_handler => (default_handler request, s1)
      | none => (methodNotFoundResponse request, s1)

/-- MockServer::handle_notification: record the notification as a request
whose id is JSON null; no response. -/
def MockServer.handle_notification (s : MockServer) (notification : JsonRpcNotification) : MockServer :=
  { s with received_requests := s.received_requests ++
      [{ jsonrpc := notification.jsonrpc
         id := JsonValue.null
         method := notification.method
         params := notification.params }] }

/-- MockServer::verify: collect a description of every method with a non-empty
remaining queue; error listing them if any, Ok otherwise.  (In Rust verify
takes &self: it reads the server and cannot mutate it; the embedding makes
this structural — verify consumes the state and returns no state.) -/
def MockServer.verify (s : MockServer) : Except String Unit :=
  let unmet := s.expectations.foldl
    (fun acc p => if p.2.isEmpty then acc else acc ++ [p.1 ++ " (" ++ toString p.2.length ++ " remaining)"]) []
  if ¬unmet.isEmpty then
    Except.error ("Unmet expectations for methods: " ++ String.intercalate ", " unmet)
  else
    Except.ok ()

/-- MockServer::received_requests accessor. -/
def MockServer.received (s : MockServer) : List JsonRpcRequest :=
  s.received_requests

/-- MockServer::reset: clear expectations and the received log. -/
def MockServer.reset (s : MockServer) : MockServer :=
  { s with expectations := [], received_requests := [] }

/-- MockServer::assert_request_received: Ok iff some received entry has the
method. -/
def MockServer.assert_request_received (s : MockServer) (method : String) : Except String Unit :=
  if s.received_requests.any (fun r => r.method == method) then
    Except.ok ()
  else
    Except.error ("Expected request \x27" ++ method ++ "\x27 was not received")

/-- MockServer::request_count: number of received entries with the method. -/
def MockServer.request_count (s : MockServer) (method : String) : Nat :=
  (s.received_requests.filter (fun r => r.method == method)).length

/-! ## MockClient (src/prism-test-utils/src/mock_client.rs) -/

/-- State of mock_client::MockClient.  The id_counter is a Rust u64; it is
modelled as Nat (a checked Rust build panics on overflow long before the
counter could wrap, and no test scenario approaches 2^64 enqueues). -/
structure MockClient where
  request_queue : List JsonRpcRequest
  responses : List JsonRpcResponse
  id_counter : Nat

/-- MockClient::new (client_info carries only display strings and is not part
of any verified behavior, so it is omitted from the state). -/
def MockClient.new : MockClient :=
  { request_queue := [], responses := [], id_counter := 1 }

/-- MockClient::next_id: return json!(id_counter) and increment the counter. -/
def MockClient.next_id (c : MockClient) : JsonValue × MockClient :=
  (JsonValue.num c.id_counter, { c with id_counter := c.id_counter + 1 })

/-- The placeholder test the source performs in MockClient::queue_request:
request.id == json!("test-123") || request.id == json!(null). -/
def isPlaceholderId (v : JsonValue) : Bool :=
  match v with
  | JsonValue.str s => s == "test-123"
  | JsonValue.null => true
  | _ => false

/-- MockClient::queue_request: overwrite a placeholder id with the next
counter value, then push the request onto the back of the queue. -/
def MockClient.queue_request (c : MockClient) (request : JsonRpcRequest) : MockClient :=
  if isPlaceholderId request.id then
    let (id, c1) := c.next_id
    { c1 with request_queue := c1.request_queue ++ [{ request with id := id }] }
  else
    { c with request_queue := c.request_queue ++ [request] }

/-- Fold of MockClient::queue_request over a list of requests, in order. -/
def MockClient.queue_all (c : MockClient) (requests : List JsonRpcRequest) : MockClient :=
  requests.foldl MockClient.queue_request c

/-- Model of prism_mcp_rs::protocol::LATEST_PROTOCOL_VERSION (an opaque
version string; no verified behavior depends on its value). -/
def LATEST_PROTOCOL_VERSION : String := "2025-06-18"

/-- MockClient::create_initialize_request: fixed id json!("init-1"). -/
def MockClient.create_initialize_request : JsonRpcRequest :=
  JsonRpcRequest.with_params (JsonValue.str "init-1") "initialize"
    (JsonValue.obj
      [("protocolVersion", JsonValue.str LATEST_PROTOCOL_VERSION),
       ("capabilities", JsonValue.obj []),
       ("clientInfo", JsonValue.obj
         [("name", JsonValue.str "mock-client"),
          ("version", JsonValue.str "1.0.0")])])

/-- MockClient::create_initialized_notification. -/
def MockClient.create_initialized_notification : JsonRpcNotification :=
  { jsonrpc := JSONRPC_VERSION
    method := "notifications/initialized"
    params := some (JsonValue.obj []) }

/-- MockClient::create_tool_call_request: fixed id json!("tool-1"). -/
def MockClient.create_tool_call_request (name : String) (args : JsonValue) : JsonRpcRequest :=
  JsonRpcRequest.with_params (JsonValue.str "tool-1") "tools/call"
    (JsonValue.obj [("name", JsonValue.str name), ("arguments", args)])

/-- MockClient::create_resource_read_request: fixed id json!("resource-1"). -/
def MockClient.create_resource_read_request (uri : String) : JsonRpcRequest :=
  JsonRpcRequest.with_params (JsonValue.str "resource-1") "resources/read"
    (JsonValue.obj [("uri", JsonValue.str uri)])

/-- MockClient::create_prompt_get_request: fixed id json!("prompt-1"). -/
def MockClient.create_prompt_get_request (name : String) (args : JsonValue) : JsonRpcRequest :=
  JsonRpcRequest.with_params (JsonValue.str "prompt-1") "prompts/get"
    (JsonValue.obj [("name", JsonValue.str name), ("arguments", args)])

/-- MockClient::create_list_tools_request: fixed id json!("list-tools-1"). -/
def MockClient.create_list_tools_request : JsonRpcRequest :=
  JsonRpcRequest.without_params (JsonValue.str "list-tools-1") "tools/list"

/-- MockClient::create_list_resources_request: fixed id
json!("list-resources-1"). -/
def MockClient.create_list_resources_request : JsonRpcRequest :=
  JsonRpcRequest.without_params (JsonValue.str "list-resources-1") "resources/list"

/-- MockClient::create_list_prompts_request: fixed id json!("list-prompts-1"). -/
def MockClient.create_list_prompts_request : JsonRpcRequest :=
  JsonRpcRequest.without_params (JsonValue.str "list-prompts-1") "prompts/list"

/-! ## TestHarness (src/prism-test-utils/src/harness.rs) -/

/-- Model of prism_mcp_rs::core::error::McpError as used by harness.rs:
protocol errors and transport errors, each carrying a message.  (The dynamic
detail a serde error appends to a parse message lives outside src/ and is
dropped; no claim depends on it.) -/
inductive McpError where
  | protocol (msg : String)
  | transport (msg : String)
  deriving DecidableEq

/-- Field lookup inside a JSON object (first matching key). -/
def getField (v : JsonValue) (key : String) : Option JsonValue :=
  match v with
  | JsonValue.obj fields => fields.lookup key
  | _ => none

/-- String extraction from a JSON value. -/
def asString (v : JsonValue) : Option String :=
  match v with
  | JsonValue.str s => some s
  | _ => none

/-- Modelled from the spec: the serverInfo part of the initialize result
payload, { name, version } (the Rust type and its serde derive live in the
external prism_mcp_rs crate). -/
structure ServerInfo where
  name : String
  version : String

/-- Modelled from the spec: the initialize result payload
{ protocolVersion: string, capabilities: object, serverInfo: {name, version} }
(prism_mcp_rs::protocol::InitializeResult is outside src/). -/
structure InitializeResult where
  protocolVersion : String
  capabilities : JsonValue
  serverInfo : ServerInfo

/-- Modelled from the spec: decoding serverInfo from JSON — both fields
required, both strings. -/
def decodeServerInfo (v : JsonValue) : Option ServerInfo :=
  match getField v "name" with
  | none => none
  | some nv =>
    match asString nv with
    | none => none
    | some n =>
      match getField v "version" with
      | none => none
      | some vv =>
        match asString vv with
        | none => none
        | some ver => some { name := n, version := ver }

/-- Modelled from the spec: serde_json::from_value for InitializeResult —
all three fields required; a payload missing serverInfo fails to decode. -/
def decodeInitializeResult (v : JsonValue) : Option InitializeResult :=
  match getField v "protocolVersion" with
  | none => none
  | some pv =>
    match asString pv with
    | none => none
    | some p =>
      match getField v "capabilities" with
      | none => none
      | some caps =>
        match getField v "serverInfo" with
        | none => none
        | some si =>
          match decodeServerInfo si with
          | none => none
          | some info => some { protocolVersion := p, capabilities := caps, serverInfo := info }

/-- The environment a TestHarness call runs against: the composition of the
memory transport and the McpServer under test (both outside src/), abstracted
as the outcome of send_request / send_notification for each message. -/
structure HarnessEnv where
  sendRequest : JsonRpcRequest → Except McpError JsonRpcResponse
  sendNotification : JsonRpcNotification → Except McpError Unit

/-- State of harness::TestHarness relevant to verification: the initialized
flag.  (The server, client and transport fields are handles to external
collaborators, abstracted by HarnessEnv.) -/
structure TestHarness where
  initialized : Bool
  deriving DecidableEq

/-- TestHarness::initialize: send the canonical initialize request, require a
result, decode it, send the initialized notification, and only then set the
initialized flag.  Any early return leaves the harness state unchanged. -/
def TestHarness.initialize (env : HarnessEnv) (st : TestHarness) :
    Except McpError InitializeResult × TestHarness :=
  match env.sendRequest MockClient.create_initialize_request with
  | Except.error e => (Except.error e, st)
  | Except.ok response =>
    match response.result with
    | none => (Except.error (McpError.protocol "Initialize response has no result"), st)
    | some result =>
      match decodeInitializeResult result with
      | none => (Except.error (McpError.protocol "Failed to parse initialize result"), st)
      | some init_result =>
        match env.sendNotification MockClient.create_initialized_notification with
        | Except.error e => (Except.error e, st)
        | Except.ok _ => (Except.ok init_result, { st with initialized := true })

/-- TestHarness::call_tool.  The third component of the output is the list of
requests written to the transport during the call (empty when the
uninitialized precondition fires, since the early return precedes the
transport write inside send_request).  dec stands for the external
serde_json::from_value::<ToolResult> decoding. -/
def TestHarness.call_tool {α : Type} (env : HarnessEnv) (dec : JsonValue → Option α)
    (st : TestHarness) (name : String) (args : JsonValue) :
    Except McpError α × TestHarness × List JsonRpcRequest :=
  if ¬st.initialized then
    (Except.error (McpError.protocol "Server not initialized"), st, [])
  else
    let request := MockClient.create_tool_call_request name args
    match env.sendRequest request with
    | Except.error e => (Except.error e, st, [request])
    | Except.ok response =>
      match response.result with
      | none => (Except.error (McpError.protocol "Tool response has no result"), st, [request])
      | some result =>
        match dec result with
        | none => (Except.error (McpError.protocol "Failed to parse tool result"), st, [request])
        | some v => (Except.ok v, st, [request])

/-- TestHarness::read_resource; dec stands for the external
serde_json::from_value::<ResourceContents> decoding. -/
def TestHarness.read_resource {α : Type} (env : HarnessEnv) (dec : JsonValue → Option α)
    (st : TestHarness) (uri : String) :
    Except McpError α × TestHarness × List JsonRpcRequest :=
  if ¬st.initialized then
    (Except.error (McpError.protocol "Server not initialized"), st, [])
  else
    let request := MockClient.create_resource_read_request uri
    match env.sendRequest request with
    | Except.error e => (Except.error e, st, [request])
    | Except.ok response =>
      match response.result with
      | none => (Except.error (McpError.protocol "Resource response has no result"), st, [request])
      | some result =>
        match dec result with
        | none => (Except.error (McpError.protocol "Failed to parse resource contents"), st, [request])
        | some v => (Except.ok v, st, [request])

/-- TestHarness::get_prompt; dec stands for the external
serde_json::from_value::<PromptResult> decoding. -/
def TestHarness.get_prompt {α : Type} (env : HarnessEnv) (dec : JsonValue → Option α)
    (st : TestHarness) (name : String) (args : JsonValue) :
    Except McpError α × TestHarness × List JsonRpcRequest :=
  if ¬st.initialized then
    (Except.error (McpError.protocol "Server not initialized"), st, [])
  else
    let request := MockClient.create_prompt_get_request name args
    match env.sendRequest request with
    | Except.error e => (Except.error e, st, [request])
    | Except.ok response =>
      match response.result with
      | none => (Except.error (McpError.protocol "Prompt response has no result"), st, [request])
      | some result =>
        match dec result with
        | none => (Except.error (McpError.protocol "Failed to parse prompt result"), st, [request])
        | some v => (Except.ok v, st, [request])

/-- The private ListToolsResponse wrapper of harness.rs: { tools: Vec<ToolInfo> };
ToolInfo itself is external, so its decoded form is a type parameter. -/
structure ListToolsResponse (α : Type) where
  tools : List α

/-- TestHarness::list_tools; dec stands for the external
serde_json::from_value::<ListToolsResponse> decoding, after which the tools
field is projected out. -/
def TestHarness.list_tools {α : Type} (env : HarnessEnv) (dec : JsonValue → Option (ListToolsResponse α))
    (st : TestHarness) :
    Except McpError (List α) × TestHarness × List JsonRpcRequest :=
  if ¬st.initialized then
    (Except.error (McpError.protocol "Server not initialized"), st, [])
  else
    let request := MockClient.create_list_tools_request
    match env.sendRequest request with
    | Except.error e => (Except.error e, st, [request])
    | Except.ok response =>
      match response.result with
      | none => (Except.error (McpError.protocol "List tools response has no result"), st, [request])
      | some result =>
        match dec result with
        | none => (Except.error (McpError.protocol "Failed to parse tools list"), st, [request])
        | some resp => (Except.ok resp.tools, st, [request])

/-! ## Derived machinery for stating the claims -/

/-- Sequentially handle a list of requests, collecting the responses. -/
def MockServer.handleAll (s : MockServer) (requests : List JsonRpcRequest) :
    List JsonRpcResponse × MockServer :=
  match requests with
  | [] => ([], s)
  | r :: rest =>
    let p := s.handle r
    let q := p.2.handleAll rest
    (p.1 :: q.1, q.2)

/-- The expectation queue currently stored for a method (empty when the map
has no entry for it). -/
def MockServer.expQueue (s : MockServer) (m : String) : List JsonRpcResponse :=
  (lookupExp s.expectations m).getD []

/-- What handle returns once the method queue is exhausted: the default
handler result when one is installed, the method-not-found error otherwise. -/
def MockServer.fallbackResponse (s : MockServer) (request : JsonRpcRequest) : JsonRpcResponse :=
  match s.default_response with
  | some default_handler => default_handler request
  | none => methodNotFoundResponse request

/-- One step of a MockServer scenario: a setup call or a delivery call, as in
the public mutating API (expect_request, expect_requests, handle,
handle_notification, reset). -/
inductive SOp where
  | expect (method : String) (response : JsonRpcResponse)
  | expectMany (method : String) (responses : List JsonRpcResponse)
  | deliver (request : JsonRpcRequest)
  | notify (notification : JsonRpcNotification)
  | reset

/-- Run one scenario step, collecting the responses handle produced. -/
def SOp.run (s : MockServer) (op : SOp) : List JsonRpcResponse × MockServer :=
  match op with
  | SOp.expect m r => ([], s.expect_request m r)
  | SOp.expectMany m rs => ([], s.expect_requests m rs)
  | SOp.deliver r =>
    let p := s.handle r
    ([p.1], p.2)
  | SOp.notify n => ([], s.handle_notification n)
  | SOp.reset => ([], s.reset)

/-- Run a scenario: every step in order, concatenating the responses the
handle calls produced. -/
def runScenario (s : MockServer) (ops : List SOp) : List JsonRpcResponse × MockServer :=
  match ops with
  | [] => ([], s)
  | op :: rest =>
    let p := SOp.run s op
    let q := runScenario p.2 rest
    (p.1 ++ q.1, q.2)

/-! ## Helper lemmas -/

theorem lookupExp_setExp_self (l : Expectations) (m : String) (q q0 : List JsonRpcResponse)
    (h : lookupExp l m = some q0) : lookupExp (setExp l m q) m = some q := by
  induction l with
  | nil => simp [lookupExp] at h
  | cons p rest ih =>
    by_cases hk : p.1 = m
    · simp [lookupExp, setExp, hk]
    · simp [lookupExp, setExp, hk] at h ⊢
      exact ih h

theorem lookupExp_setExp_ne (l : Expectations) (m k : String) (q : List JsonRpcResponse)
    (h : k ≠ m) : lookupExp (setExp l m q) k = lookupExp l k := by
  induction l with
  | nil => simp [setExp]
  | cons p rest ih =>
    by_cases hk : p.1 = m
    · simp [lookupExp, setExp, hk, Ne.symm h]
    · simp [lookupExp, setExp, hk, ih]

theorem handle_pop (s : MockServer) (r : JsonRpcRequest) (x : JsonRpcResponse)
    (xs : List JsonRpcResponse) (h : lookupExp s.expectations r.method = some (x :: xs)) :
    s.handle r = ({ x with id := some r.id },
      { s with received_requests := s.received_requests ++ [r],
               expectations := setExp s.expectations r.method xs }) := by
  simp [MockServer.handle, h]

theorem handle_exhausted (s : MockServer) (r : JsonRpcRequest)
    (h : s.expQueue r.method = []) :
    s.handle r = (s.fallbackResponse r,
      { s with received_requests := s.received_requests ++ [r] }) := by
  unfold MockServer.expQueue at h
  rcases hl : lookupExp s.expectations r.method with _ | q
  · cases hd : s.default_response with
    | none => simp [MockServer.handle, MockServer.fallbackResponse, hl, hd]
    | some f => simp [MockServer.handle, MockServer.fallbackResponse, hl, hd]
  · rw [hl] at h
    simp at h
    subst h
    cases hd : s.default_response with
    | none => simp [MockServer.handle, MockServer.fallbackResponse, hl, hd]
    | some f => simp [MockServer.handle, MockServer.fallbackResponse, hl, hd]

theorem expQueue_cons_lookup (s : MockServer) (m : String) (x : JsonRpcResponse)
    (xs : List JsonRpcResponse) (h : s.expQueue m = x :: xs) :
    lookupExp s.expectations m = some (x :: xs) := by
  unfold MockServer.expQueue at h
  rcases hl : lookupExp s.expectations m with _ | q
  · rw [hl] at h; simp at h
  · rw [hl] at h; simp at h; rw [h]

theorem handle_default_preserved (s : MockServer) (r : JsonRpcRequest) :
    (s.handle r).2.default_response = s.default_response := by
  rcases hl : lookupExp s.expectations r.method with _ | (_ | ⟨x, xs⟩)
  · cases hd : s.default_response with
    | none => simp [MockServer.handle, hl, hd]
    | some f => simp [MockServer.handle, hl, hd]
  · cases hd : s.default_response with
    | none => simp [MockServer.handle, hl, hd]
    | some f => simp [MockServer.handle, hl, hd]
  · simp [MockServer.handle, hl]

theorem handle_ordered_preserved (s : MockServer) (r : JsonRpcRequest) :
    (s.handle r).2.ordered = s.ordered := by
  rcases hl : lookupExp s.expectations r.method with _ | (_ | ⟨x, xs⟩)
  · cases hd : s.default_response with
    | none => simp [MockServer.handle, hl, hd]
    | some f => simp [MockServer.handle, hl, hd]
  · cases hd : s.default_response with
    | none => simp [MockServer.handle, hl, hd]
    | some f => simp [MockServer.handle, hl, hd]
  · simp [MockServer.handle, hl]

theorem fallback_congr (s s' : MockServer) (h : s'.default_response = s.default_response) :
    s'.fallbackResponse = s.fallbackResponse := by
  funext r
  unfold MockServer.fallbackResponse
  rw [h]

theorem expQueue_after_pop (s : MockServer) (r : JsonRpcRequest) (x : JsonRpcResponse)
    (xs : List JsonRpcResponse) (h : s.expQueue r.method = x :: xs) :
    (s.handle r).2.expQueue r.method = xs := by
  have hl := expQueue_cons_lookup s r.method x xs h
  rw [handle_pop s r x xs hl]
  unfold MockServer.expQueue
  simp [lookupExp_setExp_self _ _ _ _ hl]

theorem expQueue_handle_other (s : MockServer) (r : JsonRpcRequest) (m : String)
    (h : r.method ≠ m) : (s.handle r).2.expQueue m = s.expQueue m := by
  rcases hq : s.expQueue r.method with _ | ⟨x, xs⟩
  · rw [handle_exhausted s r hq]
    simp [MockServer.expQueue]
  · have hl := expQueue_cons_lookup s r.method x xs hq
    rw [handle_pop s r x xs hl]
    unfold MockServer.expQueue
    simp [lookupExp_setExp_ne _ _ _ _ (Ne.symm h)]

theorem handleAll_fifo (M : String) (reqs : List JsonRpcRequest) :
    ∀ s : MockServer, (∀ r ∈ reqs, r.method = M) →
    (s.handleAll reqs).1 =
      List.zipWith (fun r resp => { resp with id := some r.id }) reqs (s.expQueue M)
        ++ (reqs.drop (s.expQueue M).length).map s.fallbackResponse := by
  induction reqs with
  | nil =>
    intro s h
    simp [MockServer.handleAll]
  | cons r rest ih =>
    intro s h
    have hrM : r.method = M := h r (List.mem_cons_self _ _)
    have hrest : ∀ q ∈ rest, q.method = M := fun q hq => h q (List.mem_cons_of_mem _ hq)
    have hfb : ((s.handle r).2).fallbackResponse = s.fallbackResponse :=
      fallback_congr _ _ (handle_default_preserved s r)
    rcases hq : s.expQueue M with _ | ⟨x, xs⟩
    · have hq' : s.expQueue r.method = [] := by rw [hrM, hq]
      have hh := handle_exhausted s r hq'
      have hs1exp : ((s.handle r).2).expQueue M = [] := by
        rw [hh]
        simpa [MockServer.expQueue] using hq
      simp only [MockServer.handleAll]
      rw [ih (s.handle r).2 hrest, hs1exp, hfb, hh]
      simp
    · have hq' : s.expQueue r.method = x :: xs := by rw [hrM, hq]
      have hl := expQueue_cons_lookup s r.method x xs hq'
      have hh := handle_pop s r x xs hl
      have hs1exp : ((s.handle r).2).expQueue M = xs := by
        rw [← hrM]
        exact expQueue_after_pop s r x xs hq'
      simp only [MockServer.handleAll]
      rw [ih (s.handle r).2 hrest, hs1exp, hfb, hh]
      simp

/-! ## Concrete sample data for witnesses and counterexamples -/

/-- A sample success response with the given numeric id and result. -/
def sampleResp (n : Int) : JsonRpcResponse :=
  JsonRpcResponse.success_value (JsonValue.num n) (JsonValue.num n)

/-- A sample request with the given method and numeric id. -/
def sampleReq (m : String) (n : Int) : JsonRpcRequest :=
  JsonRpcRequest.without_params (JsonValue.num n) m

/-! ## Claims -/

/-- Claim C1: for every MockServer, every method M whose expectation queue holds N
responses, and every sequence of handle calls with requests for M, the first N
calls return the queued responses in FIFO order (each with its id overwritten
by the request id, as handle always does on this branch), the (N+1)-th and
later calls return the default handler result when one is installed and the
code -32601 method-not-found error response otherwise, and a handle call for a
different method leaves the queue of M untouched. -/
theorem mock_server_fifo_three_tier (s : MockServer) (M : String)
    (reqs : List JsonRpcRequest) (h : ∀ r ∈ reqs, r.method = M) :
    (s.handleAll reqs).1 =
      List.zipWith (fun r resp => { resp with id := some r.id }) reqs (s.expQueue M)
        ++ (reqs.drop (s.expQueue M).length).map s.fallbackResponse
    ∧ ∀ r : JsonRpcRequest, r.method ≠ M → (s.handle r).2.expQueue M = s.expQueue M :=
  ⟨handleAll_fifo M reqs s h, fun r hr => expQueue_handle_other s r M hr⟩

/-- Witness for C1: a queue of two expectations on method alpha, three alpha
requests, and one beta request; the first two calls pop the queue in order,
the third falls through to the -32601 error (no default installed), and the
beta delivery leaves the alpha queue alone. -/
theorem mock_server_fifo_three_tier_witness :
    (∀ r ∈ [sampleReq "alpha" 1, sampleReq "alpha" 2, sampleReq "alpha" 3], r.method = "alpha")
    ∧ (((MockServer.new.expect_requests "alpha" [sampleResp 10, sampleResp 20]).handleAll
          [sampleReq "alpha" 1, sampleReq "alpha" 2, sampleReq "alpha" 3]).1 =
        List.zipWith (fun r resp => { resp with id := some r.id })
          [sampleReq "alpha" 1, sampleReq "alpha" 2, sampleReq "alpha" 3]
          ((MockServer.new.expect_requests "alpha" [sampleResp 10, sampleResp 20]).expQueue "alpha")
        ++ ([sampleReq "alpha" 1, sampleReq "alpha" 2, sampleReq "alpha" 3].drop
              ((MockServer.new.expect_requests "alpha" [sampleResp 10, sampleResp 20]).expQueue "alpha").length).map
            (MockServer.new.expect_requests "alpha" [sampleResp 10, sampleResp 20]).fallbackResponse
        ∧ (((MockServer.new.expect_requests "alpha" [sampleResp 10, sampleResp 20]).handle
              (sampleReq "beta" 7)).2.expQueue "alpha" =
            (MockServer.new.expect_requests "alpha" [sampleResp 10, sampleResp 20]).expQueue "alpha")) :=
  ⟨by intro r hr; fin_cases hr <;> rfl,
   (mock_server_fifo_three_tier (MockServer.new.expect_requests "alpha" [sampleResp 10, sampleResp 20])
      "alpha" [sampleReq "alpha" 1, sampleReq "alpha" 2, sampleReq "alpha" 3]
      (by intro r hr; fin_cases hr <;> rfl)).1,
   (mock_server_fifo_three_tier (MockServer.new.expect_requests "alpha" [sampleResp 10, sampleResp 20])
      "alpha" [sampleReq "alpha" 1, sampleReq "alpha" 2, sampleReq "alpha" 3]
      (by intro r hr; fin_cases hr <;> rfl)).2 (sampleReq "beta" 7) (by decide)⟩

/-- Claim C2 counterexample: the claim asserts the response id matches the request
id on every branch, including the default-handler branch.  But handle returns
the default handler result verbatim: a handler that answers with fixed id 99
makes handle of a request with id 7 return id 99. -/
theorem mock_server_id_rewrite_counterexample :
    ((MockServer.new.with_default_response
        (fun _ => JsonRpcResponse.success_value (JsonValue.num 99) JsonValue.null)).handle
      (sampleReq "any" 7)).1.id ≠ some (JsonValue.num 7) := by
  simp [MockServer.new, MockServer.with_default_response, MockServer.handle, sampleReq,
    JsonRpcRequest.without_params, JsonRpcResponse.success_value, lookupExp]

/-- Claim C2 (amended): the response returned by handle carries the id of the
request on the queued-expectation branch (regardless of the id stored in the
expectation) and on the synthesized method-not-found branch; on the
default-handler branch the response is whatever the handler returns, so the id
is only guaranteed when no default handler is installed or the queue is
non-empty. -/
theorem mock_server_id_rewrite (s : MockServer) (r : JsonRpcRequest)
    (h : s.expQueue r.method ≠ [] ∨ s.default_response = none) :
    (s.handle r).1.id = some r.id := by
  rcases hq : s.expQueue r.method with _ | ⟨x, xs⟩
  · have hd : s.default_response = none := by
      rcases h with h | h
      · exact absurd hq h
      · exact h
    rw [handle_exhausted s r hq]
    simp [MockServer.fallbackResponse, hd, methodNotFoundResponse]
  · rw [handle_pop s r x xs (expQueue_cons_lookup _ _ _ _ hq)]

/-- Witness for the amended C2: a fresh server (no default handler) answers a
request with id 5 by the method-not-found response carrying id 5. -/
theorem mock_server_id_rewrite_witness :
    (MockServer.new.expQueue "m" ≠ [] ∨ MockServer.new.default_response = none)
    ∧ (MockServer.new.handle (sampleReq "m" 5)).1.id = some (JsonValue.num 5) :=
  ⟨Or.inr rfl, mock_server_id_rewrite MockServer.new (sampleReq "m" 5) (Or.inr rfl)⟩

theorem foldl_collect_unmet (f : String × List JsonRpcResponse → String) :
    ∀ (l : Expectations) (acc : List String),
    l.foldl (fun a p => if p.2.isEmpty then a else a ++ [f p]) acc =
      acc ++ (l.filter (fun p => !p.2.isEmpty)).map f := by
  intro l
  induction l with
  | nil => intro acc; simp
  | cons p rest ih =>
    intro acc
    by_cases hp : p.2.isEmpty
    · simp [List.foldl, hp, ih]
    · simp only [List.foldl, hp, if_false, List.filter]
      simp only [hp, Bool.not_false, ite_true]
      rw [ih]
      simp

/-- The exact description verify builds for one unmet method entry. -/
def unmetEntry (p : String × List JsonRpcResponse) : String :=
  p.1 ++ " (" ++ toString p.2.length ++ " remaining)"

/-- Claim C3: verify returns Ok exactly when every expectation queue is empty, and
when it returns an error the message lists, for each method with a non-empty
queue, the method name with its remaining count.  (verify takes the server
immutably: in this embedding it consumes the state and returns none, so it
cannot mutate the server by construction.) -/
theorem mock_server_verify_iff_empty (s : MockServer) :
    (s.verify = Except.ok () ↔ ∀ p ∈ s.expectations, p.2 = [])
    ∧ (∀ e, s.verify = Except.error e →
        e = "Unmet expectations for methods: " ++
          String.intercalate ", " ((s.expectations.filter (fun p => !p.2.isEmpty)).map unmetEntry)) := by
  have hfold := foldl_collect_unmet unmetEntry s.expectations []
  constructor
  · constructor
    · intro hok p hp
      by_contra hne
      have hmem : p ∈ s.expectations.filter (fun q => !q.2.isEmpty) := by
        simp [List.mem_filter, hp, hne]
      unfold MockServer.verify at hok
      simp only [unmetEntry] at hfold
      rw [hfold] at hok
      rcases hf : s.expectations.filter (fun q => !q.2.isEmpty) with _ | ⟨q, qs⟩
      · rw [hf] at hmem; simp at hmem
      · rw [hf] at hok; simp at hok
    · intro hall
      have hf : s.expectations.filter (fun q => !q.2.isEmpty) = [] := by
        rw [List.filter_eq_nil_iff]
        intro a ha
        simp [hall a ha]
      unfold MockServer.verify
      simp only [unmetEntry] at hfold
      rw [hfold, hf]
      simp
  · intro e he
    unfold MockServer.verify at he
    simp only [unmetEntry] at hfold
    rw [hfold] at he
    rcases hf : s.expectations.filter (fun q => !q.2.isEmpty) with _ | ⟨q, qs⟩
    · rw [hf] at he; simp at he
    · rw [hf] at he
      simp at he
      rw [← he]
      simp [unmetEntry, hf]

/-- Witness for C3: a fresh server passes verify; a server with one unmet
expectation for method never fails with the message naming the method and its
remaining count of 1. -/
theorem mock_server_verify_iff_empty_witness :
    MockServer.new.verify = Except.ok ()
    ∧ "Unmet expectations for methods: never (1 remaining)" =
        "Unmet expectations for methods: " ++
          String.intercalate ", "
            (((MockServer.new.expect_request "never" (sampleResp 1)).expectations.filter
                (fun p => !p.2.isEmpty)).map unmetEntry) :=
  ⟨(mock_server_verify_iff_empty MockServer.new).1.mpr (by simp [MockServer.new]),
   (mock_server_verify_iff_empty (MockServer.new.expect_request "never" (sampleResp 1))).2
     "Unmet expectations for methods: never (1 remaining)" (by rfl)⟩

/-- Claim C4: while the initialized flag is false, call_tool, read_resource,
get_prompt and list_tools each return the precondition protocol error
immediately: no request is written to the transport (empty send list) and the
harness state is returned unchanged, for every environment and decoder. -/
theorem harness_uninitialized_ops_fail {α β γ δ : Type} (env : HarnessEnv)
    (dt : JsonValue → Option α) (dr : JsonValue → Option β) (dp : JsonValue → Option γ)
    (dl : JsonValue → Option (ListToolsResponse δ)) (st : TestHarness)
    (h : st.initialized = false) (name uri pname : String) (args pargs : JsonValue) :
    TestHarness.call_tool env dt st name args =
      (Except.error (McpError.protocol "Server not initialized"), st, [])
    ∧ TestHarness.read_resource env dr st uri =
      (Except.error (McpError.protocol "Server not initialized"), st, [])
    ∧ TestHarness.get_prompt env dp st pname pargs =
      (Except.error (McpError.protocol "Server not initialized"), st, [])
    ∧ TestHarness.list_tools env dl st =
      (Except.error (McpError.protocol "Server not initialized"), st, []) := by
  refine ⟨?_, ?_, ?_, ?_⟩ <;>
    simp [TestHarness.call_tool, TestHarness.read_resource, TestHarness.get_prompt,
      TestHarness.list_tools, h]

/-- Witness for C4: a concrete uninitialized harness against a dead transport;
all four operations fail with the precondition error, send nothing, and leave
the state alone. -/
theorem harness_uninitialized_ops_fail_witness :
    ({ initialized := false } : TestHarness).initialized = false
    ∧ (TestHarness.call_tool
        { sendRequest := fun _ => Except.error (McpError.transport "closed"),
          sendNotification := fun _ => Except.error (McpError.transport "closed") }
        (fun _ => (none : Option Unit)) { initialized := false } "t" JsonValue.null =
      (Except.error (McpError.protocol "Server not initialized"), { initialized := false }, [])
    ∧ TestHarness.read_resource
        { sendRequest := fun _ => Except.error (McpError.transport "closed"),
          sendNotification := fun _ => Except.error (McpError.transport "closed") }
        (fun _ => (none : Option Unit)) { initialized := false } "file:u" =
      (Except.error (McpError.protocol "Server not initialized"), { initialized := false }, [])
    ∧ TestHarness.get_prompt
        { sendRequest := fun _ => Except.error (McpError.transport "closed"),
          sendNotification := fun _ => Except.error (McpError.transport "closed") }
        (fun _ => (none : Option Unit)) { initialized := false } "p" JsonValue.null =
      (Except.error (McpError.protocol "Server not initialized"), { initialized := false }, [])
    ∧ TestHarness.list_tools
        { sendRequest := fun _ => Except.error (McpError.transport "closed"),
          sendNotification := fun _ => Except.error (McpError.transport "closed") }
        (fun _ => (none : Option (ListToolsResponse Unit))) { initialized := false } =
      (Except.error (McpError.protocol "Server not initialized"), { initialized := false }, [])) :=
  ⟨rfl,
   harness_uninitialized_ops_fail
     { sendRequest := fun _ => Except.error (McpError.transport "closed"),
       sendNotification := fun _ => Except.error (McpError.transport "closed") }
     (fun _ => (none : Option Unit)) (fun _ => (none : Option Unit))
     (fun _ => (none : Option Unit)) (fun _ => (none : Option (ListToolsResponse Unit)))
     { initialized := false } rfl "t" "file:u" "p" JsonValue.null JsonValue.null⟩

/-- Claim C5: initialize sets the initialized flag exactly when the initialize
response carried a result that decodes into the initialize-result payload and
the initialized notification then went through; on any failure it returns the
error with the harness state unchanged — no partial-ready state. -/
theorem harness_initialize_all_or_nothing (env : HarnessEnv) (st : TestHarness) :
    (∀ r st', TestHarness.initialize env st = (Except.ok r, st') →
      st'.initialized = true
      ∧ (∃ resp, env.sendRequest MockClient.create_initialize_request = Except.ok resp
          ∧ ∃ v, resp.result = some v ∧ decodeInitializeResult v = some r)
      ∧ env.sendNotification MockClient.create_initialized_notification = Except.ok ())
    ∧ (∀ e st', TestHarness.initialize env st = (Except.error e, st') → st' = st) := by
  refine ⟨?_, ?_⟩
  · intro r st' h
    unfold TestHarness.initialize at h
    rcases hreq : env.sendRequest MockClient.create_initialize_request with e0 | resp <;>
      simp only [hreq] at h
    · simp at h
    · rcases hres : resp.result with _ | v <;> simp only [hres] at h
      · simp at h
      · rcases hdec : decodeInitializeResult v with _ | ir <;> simp only [hdec] at h
        · simp at h
        · rcases hnot : env.sendNotification MockClient.create_initialized_notification with e1 | u <;>
            simp only [hnot] at h
          · simp at h
          · simp only [Prod.mk.injEq, Except.ok.injEq] at h
            obtain ⟨h1, h2⟩ := h
            cases h1
            exact ⟨by rw [← h2], ⟨resp, rfl, v, hres, hdec⟩, rfl⟩
  · intro e st' h
    unfold TestHarness.initialize at h
    rcases hreq : env.sendRequest MockClient.create_initialize_request with e0 | resp <;>
      simp only [hreq] at h
    · exact (Prod.mk.injEq .. ▸ h).2.symm
    · rcases hres : resp.result with _ | v <;> simp only [hres] at h
      · exact (Prod.mk.injEq .. ▸ h).2.symm
      · rcases hdec : decodeInitializeResult v with _ | ir <;> simp only [hdec] at h
        · exact (Prod.mk.injEq .. ▸ h).2.symm
        · rcases hnot : env.sendNotification MockClient.create_initialized_notification with e1 | u <;>
            simp only [hnot] at h
          · exact (Prod.mk.injEq .. ▸ h).2.symm
          · simp at h

/-- An environment whose initialize response carries a result that lacks the
serverInfo field (scenario E of the spec). -/
def envMissingServerInfo : HarnessEnv :=
  { sendRequest := fun _ => Except.ok (JsonRpcResponse.success_value (JsonValue.num 1)
      (JsonValue.obj
        [("protocolVersion", JsonValue.str LATEST_PROTOCOL_VERSION),
         ("capabilities", JsonValue.obj [])])),
    sendNotification := fun _ => Except.ok () }

/-- Witness for C5: against envMissingServerInfo the decode fails, initialize
surfaces a protocol error, and the harness stays uninitialized. -/
theorem harness_initialize_all_or_nothing_witness :
    TestHarness.initialize envMissingServerInfo { initialized := false } =
      (Except.error (McpError.protocol "Failed to parse initialize result"), { initialized := false })
    ∧ ({ initialized := false } : TestHarness) = { initialized := false } :=
  ⟨rfl, (harness_initialize_all_or_nothing envMissingServerInfo { initialized := false }).2
    (McpError.protocol "Failed to parse initialize result") { initialized := false } rfl⟩

theorem queue_all_assigned (reqs : List JsonRpcRequest) :
    ∀ c : MockClient, (∀ r ∈ reqs, isPlaceholderId r.id = true) →
    (c.queue_all reqs).request_queue =
      c.request_queue ++
        List.zipWith (fun r i => { r with id := JsonValue.num i }) reqs
          (List.range' c.id_counter reqs.length)
    ∧ (c.queue_all reqs).id_counter = c.id_counter + reqs.length := by
  induction reqs with
  | nil =>
    intro c h
    simp [MockClient.queue_all]
  | cons r rest ih =>
    intro c h
    have hr : isPlaceholderId r.id = true := h r (List.mem_cons_self _ _)
    have hrest : ∀ q ∈ rest, isPlaceholderId q.id = true :=
      fun q hq => h q (List.mem_cons_of_mem _ hq)
    have hstep : MockClient.queue_all c (r :: rest) = (c.queue_request r).queue_all rest := rfl
    have hqr : c.queue_request r =
        { request_queue := c.request_queue ++ [{ r with id := JsonValue.num c.id_counter }],
          responses := c.responses,
          id_counter := c.id_counter + 1 } := by
      simp [MockClient.queue_request, hr, MockClient.next_id]
    obtain ⟨ih1, ih2⟩ := ih (c.queue_request r) hrest
    rw [hstep]
    constructor
    · rw [ih1, hqr]
      simp [List.length_cons, List.range'_succ, List.zipWith]
    · rw [ih2, hqr]
      simp
      omega

theorem map_id_zipWith_assign : ∀ (reqs : List JsonRpcRequest) (l : List Nat),
    reqs.length = l.length →
    (List.zipWith (fun r i => { r with id := JsonValue.num i }) reqs l).map
        (fun r => r.id) = l.map (fun i => JsonValue.num i) := by
  intro reqs
  induction reqs with
  | nil =>
    intro l h
    cases l with
    | nil => simp
    | cons a as => simp at h
  | cons r rest ih =>
    intro l h
    cases l with
    | nil => simp at h
    | cons i is =>
      simp at h
      simp [List.zipWith, ih is h]

theorem zipWith_assign_id_mem : ∀ (reqs : List JsonRpcRequest) (a : Nat) (y : JsonRpcRequest),
    y ∈ List.zipWith (fun r i => { r with id := JsonValue.num i }) reqs
        (List.range' a reqs.length) →
    ∃ v : Nat, a ≤ v ∧ y.id = JsonValue.num v := by
  intro reqs
  induction reqs with
  | nil =>
    intro a y hy
    simp at hy
  | cons r rest ih =>
    intro a y hy
    simp only [List.length_cons, List.range'_succ, List.zipWith] at hy
    rcases List.mem_cons.mp hy with h | h
    · exact ⟨a, Nat.le_refl a, by rw [h]⟩
    · obtain ⟨v, hv, hid⟩ := ih (a + 1) y h
      exact ⟨v, by omega, hid⟩

theorem pairwise_zipWith_assign : ∀ (reqs : List JsonRpcRequest) (a : Nat),
    (List.zipWith (fun r i => { r with id := JsonValue.num i }) reqs
        (List.range' a reqs.length)).Pairwise
      (fun x y => ∃ u v : Nat, x.id = JsonValue.num u ∧ y.id = JsonValue.num v ∧ u < v) := by
  intro reqs
  induction reqs with
  | nil =>
    intro a
    simp
  | cons r rest ih =>
    intro a
    simp only [List.length_cons, List.range'_succ, List.zipWith]
    refine List.Pairwise.cons ?_ (ih (a + 1))
    intro y hy
    obtain ⟨v, hv, hid⟩ := zipWith_assign_id_mem rest (a + 1) y hy
    exact ⟨a, v, rfl, hid, by omega⟩

/-- Claim C6: queuing any sequence of placeholder-id requests on a fresh MockClient
assigns the counter values 1, 2, 3, ... in order — each assigned id is a
number strictly greater than every id assigned before it by the same client. -/
theorem mock_client_ids_strictly_increasing (reqs : List JsonRpcRequest)
    (h : ∀ r ∈ reqs, isPlaceholderId r.id = true) :
    (MockClient.new.queue_all reqs).request_queue.map (fun r => r.id) =
      (List.range' 1 reqs.length).map (fun i => JsonValue.num i)
    ∧ (MockClient.new.queue_all reqs).request_queue.Pairwise
        (fun x y => ∃ u v : Nat, x.id = JsonValue.num u ∧ y.id = JsonValue.num v ∧ u < v) := by
  obtain ⟨h1, _⟩ := queue_all_assigned reqs MockClient.new h
  constructor
  · rw [h1]
    exact map_id_zipWith_assign reqs (List.range' 1 reqs.length) (by simp)
  · rw [h1]
    exact pairwise_zipWith_assign reqs 1

/-- Witness for C6: two placeholder requests (a null id and a test-123 id)
receive ids 1 and 2 in order. -/
theorem mock_client_ids_strictly_increasing_witness :
    (∀ r ∈ [JsonRpcRequest.without_params JsonValue.null "a",
            JsonRpcRequest.without_params (JsonValue.str "test-123") "b"],
        isPlaceholderId r.id = true)
    ∧ ((MockClient.new.queue_all
          [JsonRpcRequest.without_params JsonValue.null "a",
           JsonRpcRequest.without_params (JsonValue.str "test-123") "b"]).request_queue.map
            (fun r => r.id) =
        (List.range' 1 2).map (fun i => JsonValue.num i)
    ∧ (MockClient.new.queue_all
          [JsonRpcRequest.without_params JsonValue.null "a",
           JsonRpcRequest.without_params (JsonValue.str "test-123") "b"]).request_queue.Pairwise
        (fun x y => ∃ u v : Nat, x.id = JsonValue.num u ∧ y.id = JsonValue.num v ∧ u < v)) :=
  ⟨by intro r hr; fin_cases hr <;> rfl,
   mock_client_ids_strictly_increasing
     [JsonRpcRequest.without_params JsonValue.null "a",
      JsonRpcRequest.without_params (JsonValue.str "test-123") "b"]
     (by intro r hr; fin_cases hr <;> rfl)⟩

/-- Claim C7 counterexample: the claim says queue_request replaces the well-known
ids of the factory helpers with counter-generated ids.  It does not: queuing
create_initialize_request on a fresh client enqueues id "init-1", not the
counter value 1 the claim predicts. -/
theorem mock_client_factory_replacement_counterexample :
    (MockClient.new.queue_request MockClient.create_initialize_request).request_queue.map
        (fun r => r.id) = [JsonValue.str "init-1"]
    ∧ [JsonValue.str "init-1"] ≠ [JsonValue.num 1] := by
  constructor
  · rfl
  · intro heq
    simp at heq

/-- Claim C7 (amended): each factory helper builds a request with its fixed
well-known id ("init-1", "tool-1", "resource-1", "prompt-1", "list-tools-1",
"list-resources-1", "list-prompts-1"), but queue_request rewrites an id only
when it is json "test-123" or json null; every other id — the factory ids
included — is enqueued unchanged, with the counter untouched. -/
theorem mock_client_factory_fixed_ids :
    MockClient.create_initialize_request.id = JsonValue.str "init-1"
    ∧ (∀ n a, (MockClient.create_tool_call_request n a).id = JsonValue.str "tool-1")
    ∧ (∀ u, (MockClient.create_resource_read_request u).id = JsonValue.str "resource-1")
    ∧ (∀ n a, (MockClient.create_prompt_get_request n a).id = JsonValue.str "prompt-1")
    ∧ MockClient.create_list_tools_request.id = JsonValue.str "list-tools-1"
    ∧ MockClient.create_list_resources_request.id = JsonValue.str "list-resources-1"
    ∧ MockClient.create_list_prompts_request.id = JsonValue.str "list-prompts-1"
    ∧ (∀ (c : MockClient) (r : JsonRpcRequest), isPlaceholderId r.id = false →
        (c.queue_request r).request_queue = c.request_queue ++ [r]
        ∧ (c.queue_request r).id_counter = c.id_counter)
    ∧ (∀ (c : MockClient) (r : JsonRpcRequest), isPlaceholderId r.id = true →
        (c.queue_request r).request_queue =
          c.request_queue ++ [{ r with id := JsonValue.num c.id_counter }])
    ∧ (∀ s : String, isPlaceholderId (JsonValue.str s) = true → s = "test-123") := by
  refine ⟨rfl, fun n a => rfl, fun u => rfl, fun n a => rfl, rfl, rfl, rfl, ?_, ?_, ?_⟩
  · intro c r hr
    constructor <;> simp [MockClient.queue_request, hr]
  · intro c r hr
    simp [MockClient.queue_request, hr, MockClient.next_id]
  · intro s hs
    simpa [isPlaceholderId] using hs

/-- Witness for the amended C7: the initialize factory id "init-1" is not a
placeholder, so queuing it on a fresh client preserves the request and the
counter; a genuine "test-123" placeholder is rewritten to counter id 1. -/
theorem mock_client_factory_fixed_ids_witness :
    isPlaceholderId MockClient.create_initialize_request.id = false
    ∧ ((MockClient.new.queue_request MockClient.create_initialize_request).request_queue =
        MockClient.new.request_queue ++ [MockClient.create_initialize_request]
      ∧ (MockClient.new.queue_request MockClient.create_initialize_request).id_counter =
        MockClient.new.id_counter)
    ∧ (MockClient.new.queue_request (JsonRpcRequest.without_params (JsonValue.str "test-123") "m")).request_queue =
        MockClient.new.request_queue ++
          [{ JsonRpcRequest.without_params (JsonValue.str "test-123") "m" with
              id := JsonValue.num MockClient.new.id_counter }] :=
  ⟨rfl,
   (mock_client_factory_fixed_ids).2.2.2.2.2.2.2.1 MockClient.new
     MockClient.create_initialize_request rfl,
   (mock_client_factory_fixed_ids).2.2.2.2.2.2.2.2.1 MockClient.new
     (JsonRpcRequest.without_params (JsonValue.str "test-123") "m") rfl⟩

theorem expect_requests_default (rs : List JsonRpcResponse) :
    ∀ (s : MockServer) (m : String),
    (s.expect_requests m rs).default_response = s.default_response := by
  induction rs with
  | nil => intro s m; rfl
  | cons r rest ih =>
    intro s m
    exact ih (s.expect_request m r) m

theorem expect_requests_ordered (rs : List JsonRpcResponse) :
    ∀ (s : MockServer) (m : String),
    (s.expect_requests m rs).ordered = s.ordered := by
  induction rs with
  | nil => intro s m; rfl
  | cons r rest ih =>
    intro s m
    exact ih (s.expect_request m r) m

theorem sop_run_default (s : MockServer) (op : SOp) :
    (SOp.run s op).2.default_response = s.default_response := by
  cases op with
  | expect m r => rfl
  | expectMany m rs => exact expect_requests_default rs s m
  | deliver r => exact handle_default_preserved s r
  | notify n => rfl
  | reset => rfl

theorem sop_run_ordered (s : MockServer) (op : SOp) :
    (SOp.run s op).2.ordered = s.ordered := by
  cases op with
  | expect m r => rfl
  | expectMany m rs => exact expect_requests_ordered rs s m
  | deliver r => exact handle_ordered_preserved s r
  | notify n => rfl
  | reset => rfl

theorem runScenario_default (ops : List SOp) :
    ∀ s : MockServer, (runScenario s ops).2.default_response = s.default_response := by
  induction ops with
  | nil => intro s; rfl
  | cons op rest ih =>
    intro s
    have h1 := sop_run_default s op
    have h2 := ih (SOp.run s op).2
    simp only [runScenario]
    rw [h2, h1]

theorem runScenario_ordered (ops : List SOp) :
    ∀ s : MockServer, (runScenario s ops).2.ordered = s.ordered := by
  induction ops with
  | nil => intro s; rfl
  | cons op rest ih =>
    intro s
    have h1 := sop_run_ordered s op
    have h2 := ih (SOp.run s op).2
    simp only [runScenario]
    rw [h2, h1]

/-- Claim C8 counterexample: the claim quantifies over every MockServer, including
servers carrying leftover expectations.  On a server already holding one
expectation for method m, the scenario "deliver one m request" answers with
that expectation the first time, but after reset the same scenario answers
with the method-not-found error: the two response sequences differ. -/
theorem mock_server_reset_replay_counterexample :
    (runScenario ((runScenario (MockServer.new.expect_request "m" (sampleResp 10))
        [SOp.deliver (sampleReq "m" 1)]).2.reset) [SOp.deliver (sampleReq "m" 1)]).1 ≠
    (runScenario (MockServer.new.expect_request "m" (sampleResp 10))
        [SOp.deliver (sampleReq "m" 1)]).1 := by
  have e1 : (runScenario (MockServer.new.expect_request "m" (sampleResp 10))
      [SOp.deliver (sampleReq "m" 1)]).1 =
      [{ sampleResp 10 with id := some (JsonValue.num 1) }] := rfl
  have e2 : (runScenario ((runScenario (MockServer.new.expect_request "m" (sampleResp 10))
      [SOp.deliver (sampleReq "m" 1)]).2.reset) [SOp.deliver (sampleReq "m" 1)]).1 =
      [methodNotFoundResponse (sampleReq "m" 1)] := rfl
  rw [e1, e2]
  simp [methodNotFoundResponse, sampleResp, JsonRpcResponse.success_value]

/-- Claim C8 (amended): for every MockServer whose expectation queues and received
log start empty (freshly constructed or just reset) and every scenario of
setup and delivery calls, running the scenario, calling reset, then running
the same scenario again replays identically: same responses in the same
order, same received log, same final state. -/
theorem mock_server_reset_replay (s : MockServer) (ops : List SOp)
    (he : s.expectations = []) (hr : s.received_requests = []) :
    runScenario ((runScenario s ops).2.reset) ops = runScenario s ops := by
  have hd := runScenario_default ops s
  have ho := runScenario_ordered ops s
  have hkey : (runScenario s ops).2.reset = s := by
    show MockServer.mk [] [] (runScenario s ops).2.ordered
        (runScenario s ops).2.default_response = s
    rw [hd, ho, ← he, ← hr]
  rw [hkey]

/-- Witness for the amended C8: a fresh server with a one-expectation
scenario replays identically after reset. -/
theorem mock_server_reset_replay_witness :
    MockServer.new.expectations = [] ∧ MockServer.new.received_requests = []
    ∧ runScenario ((runScenario MockServer.new
          [SOp.expect "m" (sampleResp 10), SOp.deliver (sampleReq "m" 1)]).2.reset)
        [SOp.expect "m" (sampleResp 10), SOp.deliver (sampleReq "m" 1)] =
      runScenario MockServer.new
        [SOp.expect "m" (sampleResp 10), SOp.deliver (sampleReq "m" 1)] :=
  ⟨rfl, rfl,
   mock_server_reset_replay MockServer.new
     [SOp.expect "m" (sampleResp 10), SOp.deliver (sampleReq "m" 1)] rfl rfl⟩

theorem expect_requests_ordered_update (rs : List JsonRpcResponse) :
    ∀ (s : MockServer) (m : String) (b : Bool),
    MockServer.expect_requests { s with ordered := b } m rs =
      { s.expect_requests m rs with ordered := b } := by
  induction rs with
  | nil => intro s m b; rfl
  | cons r rest ih =>
    intro s m b
    have hstep : MockServer.expect_requests { s with ordered := b } m (r :: rest) =
        MockServer.expect_requests (({ s with ordered := b }).expect_request m r) m rest := rfl
    rw [hstep]
    have hone : ({ s with ordered := b } : MockServer).expect_request m r =
        { s.expect_request m r with ordered := b } := rfl
    rw [hone]
    exact ih (s.expect_request m r) m b

theorem handle_ordered_update (s : MockServer) (r : JsonRpcRequest) (b : Bool) :
    MockServer.handle { s with ordered := b } r =
      ((s.handle r).1, { (s.handle r).2 with ordered := b }) := by
  rcases hl : lookupExp s.expectations r.method with _ | (_ | ⟨x, xs⟩)
  · cases hd : s.default_response with
    | none => simp [MockServer.handle, hl, hd]
    | some f => simp [MockServer.handle, hl, hd]
  · cases hd : s.default_response with
    | none => simp [MockServer.handle, hl, hd]
    | some f => simp [MockServer.handle, hl, hd]
  · simp [MockServer.handle, hl]

theorem sop_run_ordered_update (op : SOp) (s : MockServer) (b : Bool) :
    SOp.run { s with ordered := b } op =
      ((SOp.run s op).1, { (SOp.run s op).2 with ordered := b }) := by
  cases op with
  | expect m r => rfl
  | expectMany m rs =>
    simp only [SOp.run]
    rw [expect_requests_ordered_update]
  | deliver r =>
    simp only [SOp.run]
    rw [handle_ordered_update]
  | notify n => rfl
  | reset => rfl

theorem runScenario_ordered_update (ops : List SOp) :
    ∀ (s : MockServer) (b : Bool),
    runScenario { s with ordered := b } ops =
      ((runScenario s ops).1, { (runScenario s ops).2 with ordered := b }) := by
  induction ops with
  | nil => intro s b; rfl
  | cons op rest ih =>
    intro s b
    simp only [runScenario]
    rw [sop_run_ordered_update op s b]
    simp only []
    rw [ih (SOp.run s op).2 b]

/-- Claim C9: a server built with new_ordered behaves identically to one built with
new under every sequence of mutating operations: same responses, same
expectation map, same received log, and all read-only queries (verify,
request_count, assert_request_received) agree — the ordered flag is stored
but never consulted. -/
theorem mock_server_ordered_flag_inert (ops : List SOp) :
    (runScenario MockServer.new_ordered ops).1 = (runScenario MockServer.new ops).1
    ∧ (runScenario MockServer.new_ordered ops).2.expectations =
        (runScenario MockServer.new ops).2.expectations
    ∧ (runScenario MockServer.new_ordered ops).2.received_requests =
        (runScenario MockServer.new ops).2.received_requests
    ∧ (runScenario MockServer.new_ordered ops).2.verify =
        (runScenario MockServer.new ops).2.verify
    ∧ (∀ m, (runScenario MockServer.new_ordered ops).2.request_count m =
        (runScenario MockServer.new ops).2.request_count m)
    ∧ (∀ m, (runScenario MockServer.new_ordered ops).2.assert_request_received m =
        (runScenario MockServer.new ops).2.assert_request_received m) := by
  have hnew : MockServer.new_ordered = { MockServer.new with ordered := true } := rfl
  have hkey : runScenario MockServer.new_ordered ops =
      ((runScenario MockServer.new ops).1,
       { (runScenario MockServer.new ops).2 with ordered := true }) := by
    rw [hnew, runScenario_ordered_update]
  rw [hkey]
  exact ⟨rfl, rfl, rfl, rfl, fun m => rfl, fun m => rfl⟩

/-- Claim C10: handle_notification appends to the received log a request entry with
id JSON null carrying the notification method and params; that entry counts
in request_count for its method exactly like a request, and a server that
received only such a notification passes assert_request_received for the
notification method. -/
theorem mock_server_notification_logged (s : MockServer) (n : JsonRpcNotification) :
    (s.handle_notification n).received_requests =
      s.received_requests ++
        [{ jsonrpc := n.jsonrpc, id := JsonValue.null, method := n.method, params := n.params }]
    ∧ (∀ m, (s.handle_notification n).request_count m =
        s.request_count m + (if n.method == m then 1 else 0))
    ∧ ∀ n2 : JsonRpcNotification,
        (MockServer.new.handle_notification n2).assert_request_received n2.method =
          Except.ok () := by
  refine ⟨rfl, ?_, ?_⟩
  · intro m
    unfold MockServer.request_count MockServer.handle_notification
    simp only [List.filter_append, List.length_append]
    by_cases hb : (n.method == m)
    · simp [List.filter, hb]
    · simp [List.filter, hb]
  · intro n2
    simp [MockServer.handle_notification, MockServer.assert_request_received, MockServer.new]
